import Mathlib

/-!
Verification of the RVVM RISC-V virtual machine core (riscv32.c, threading.c,
devices/ata.c) against its natural-language specification.

The C sources are shallowly embedded: machine integers become `Nat` with explicit
`% 2 ^ w` (or masking) where C truncation or wraparound matters, per-privilege CSR
arrays become functions `Nat → Nat` updated with `Function.update`, and fallible
operations return `Option`.  Host-side effects that the functions merely consume
(file reads and writes, allocation success) enter as explicit parameters.
-/

namespace RVVM

/-! ## Bit helpers

`riscv32.c` and `ata.c` use `bit_cut`, `bit_replace` and `bit_check` from the
repository's `bit_ops.h`, which is not among the given sources.  Their semantics
are modelled from the spec ("bit extract/replace helpers", section 2). -/

/-- Modelled from the spec: `bit_cut(val, pos, bits)` — extract the `bits`-bit
field of `val` starting at bit `pos` (the "bit extract" helper of `bit_ops.h`,
which is not under `src/`). -/
def bit_cut (v pos bits : Nat) : Nat := (v >>> pos) &&& ((1 <<< bits) - 1)

/-- Modelled from the spec: `bit_replace(val, pos, bits, val2)` — replace the
`bits`-bit field of the 32-bit value `val` at bit `pos` by the low `bits` bits
of `val2`, leaving all other bits unchanged (the "bit replace" helper of
`bit_ops.h`, which is not under `src/`). -/
def bit_replace (v pos bits x : Nat) : Nat :=
  (v &&& (0xFFFFFFFF ^^^ (((1 <<< bits) - 1) <<< pos))) ||| ((x &&& ((1 <<< bits) - 1)) <<< pos)

/-- Modelled from the spec: `bit_check(val, pos)` — test bit `pos` of `val`
(`bit_ops.h`, not under `src/`). -/
def bit_check (v pos : Nat) : Bool := (v >>> pos) &&& 1 == 1

/-! ## Privilege levels, interrupt and trap numbers (riscv32.h) -/

def PRIVILEGE_USER : Nat := 0
def PRIVILEGE_SUPERVISOR : Nat := 1
def PRIVILEGE_HYPERVISOR : Nat := 2
def PRIVILEGE_MACHINE : Nat := 3

def INTERRUPT_MASK : Nat := 0x80000000
def INTERRUPT_MTIMER : Nat := 0x7
def TRAP_ILL_INSTR : Nat := 0x2

def MAX_VMS : Nat := 256

/-! ## Hart state

Translated from `struct riscv32_vm_state_t` (riscv32.h).  Only the fields
touched by the verified functions are carried.  `registers[REGISTER_PC]` is the
`pc` field; the 32 general registers, TLB, physical memory and MMIO table do not
participate in any verified claim.  The register accessors
`riscv32i_read_register_u` / `riscv32i_write_register_u` (riscv32i_registers.h,
not under `src/`) are modelled from the spec as 32-bit reads/writes of the named
register, so `pc` is kept reduced modulo `2 ^ 32`.  The timer (`rvtimer_t`,
rvtimer.h, not under `src/`) is modelled from the spec as a monotonic counter
`timer_mtime` plus compare register `timer_mtimecmp`. -/
structure VMState where
  pc : Nat
  status : Nat
  edeleg : Nat → Nat
  ideleg : Nat → Nat
  ie : Nat
  tvec : Nat → Nat
  epc : Nat → Nat
  cause : Nat → Nat
  tval : Nat → Nat
  ip : Nat
  priv_mode : Nat
  ev_trap : Bool
  ev_int : Bool
  ev_int_mask : Nat
  wait_event : Nat
  timer_mtime : Nat
  timer_mtimecmp : Nat

/-- Modelled from the spec: the timer pending predicate `rvtimer_pending`
(rvtimer.h, not under `src/`): "Timer (monotonic frequency-scaled counter plus
compare register)" with a pending predicate; pending iff the counter has reached
the compare value (`mtime >= mtimecmp`). -/
def rvtimer_pending (vm : VMState) : Bool := vm.timer_mtimecmp ≤ vm.timer_mtime

/-! ## Delegation scan (riscv32.c: riscv32_trap, riscv32_perform_interrupt)

Both functions run the loop
`for (priv = PRIVILEGE_MACHINE; priv > lo; --priv)
   if ((deleg[priv] & (1 << cause)) == 0) break;`
differing only in the delegation array and the lower bound `lo`
(`vm->priv_mode` for traps, `cause & 0x3` for interrupts). -/

/-- One unrolling state of the delegation scan loop: the argument is the
current value of `priv`. -/
def delegScanAux (deleg : Nat → Nat) (lo cause : Nat) : Nat → Nat
  | 0 => 0
  | p + 1 =>
    if lo < p + 1 then
      if deleg (p + 1) &&& (1 <<< cause) = 0 then p + 1
      else delegScanAux deleg lo cause p
    else p + 1

/-- The delegation scan loop, started at `priv = PRIVILEGE_MACHINE`. -/
def delegScan (deleg : Nat → Nat) (lo cause : Nat) : Nat :=
  delegScanAux deleg lo cause PRIVILEGE_MACHINE

/-- The `xPP`/`xPIE`/`xIE` status update that both `riscv32_trap` and
`riscv32_perform_interrupt` perform verbatim (riscv32.c lines 263-272 and
289-298): for a machine-mode target, `MPP ← priv_mode`, `MPIE ← MIE`,
`MIE ← 0`; for a supervisor-mode target, `SPP ← priv_mode`, `SPIE ← SIE`,
`SIE ← 0`; otherwise the status is untouched. -/
def trapStatusUpdate (status priv_mode priv : Nat) : Nat :=
  if priv = PRIVILEGE_MACHINE then
    let s := bit_replace status 11 2 priv_mode
    let s := bit_replace s 7 1 (bit_cut s 3 1)
    s &&& 0xFFFFFFF7
  else if priv = PRIVILEGE_SUPERVISOR then
    let s := bit_replace status 8 1 priv_mode
    let s := bit_replace s 5 1 (bit_cut s 1 1)
    s &&& 0xFFFFFFFD
  else status

/-- `riscv32_trap` (riscv32.c lines 277-302): pick the target privilege by the
delegation scan over `edeleg` bounded below by the current mode, record
`epc`/`cause`/`tval` at the target, update the status register, enter the
target privilege, raise `ev_trap` and poke `wait_event`. -/
def riscv32_trap (vm : VMState) (cause tval : Nat) : VMState :=
  let priv := delegScan vm.edeleg vm.priv_mode cause
  { vm with
    epc := Function.update vm.epc priv vm.pc
    cause := Function.update vm.cause priv cause
    tval := Function.update vm.tval priv tval
    status := trapStatusUpdate vm.status vm.priv_mode priv
    priv_mode := priv
    ev_trap := true
    wait_event := 0 }

/-- `riscv32_perform_interrupt` (riscv32.c lines 251-275): like `riscv32_trap`
but the scan runs over `ideleg` bounded below by `cause & 0x3`, the recorded
cause carries `INTERRUPT_MASK`, `tval` is zeroed, and `ev_trap` is not set
here. -/
def riscv32_perform_interrupt (vm : VMState) (cause : Nat) : VMState :=
  let priv := delegScan vm.ideleg (cause &&& 0x3) cause
  { vm with
    epc := Function.update vm.epc priv vm.pc
    cause := Function.update vm.cause priv (cause ||| INTERRUPT_MASK)
    tval := Function.update vm.tval priv 0
    status := trapStatusUpdate vm.status vm.priv_mode priv
    priv_mode := priv
    wait_event := 0 }

/-- The `iallow` predicate of `riscv32_handle_ip` (riscv32.c lines 312-316):
the gating privilege is `i & 3`, the source privilege class encoded in the
interrupt number. -/
def interruptAllowed (vm : VMState) (wfi : Bool) (i : Nat) : Bool :=
  let priv := i &&& 3
  decide (vm.priv_mode < priv) ||
    (decide (priv = vm.priv_mode) && (decide (vm.status &&& (1 <<< priv) ≠ 0) || wfi))

/-- The per-interrupt firing test of `riscv32_handle_ip` (riscv32.c lines
311-319): bit `i` pending, bit `i` enabled, and `iallow`. -/
def interruptFires (vm : VMState) (wfi : Bool) (i : Nat) : Bool :=
  decide (vm.ip &&& (1 <<< i) ≠ 0) &&
    (decide (vm.ie &&& (1 <<< i) ≠ 0) && interruptAllowed vm wfi i)

/-- The scan loop of `riscv32_handle_ip`
(`for (uint32_t i = 11; i > 0; --i) ...`): the first firing interrupt number,
scanning from 11 down to 1. -/
def scanInterrupts (vm : VMState) (wfi : Bool) : Nat → Option Nat
  | 0 => none
  | i + 1 =>
    if interruptFires vm wfi (i + 1) then some (i + 1)
    else scanInterrupts vm wfi i

/-- `riscv32_handle_ip` (riscv32.c lines 304-332): deliver the
highest-numbered firing interrupt, if any; when called out of WFI, first
advance the PC by 4 and raise `ev_trap`. -/
def riscv32_handle_ip (vm : VMState) (wfi : Bool) : Bool × VMState :=
  if vm.ip ≠ 0 then
    match scanInterrupts vm wfi 11 with
    | some i =>
      let vm := if wfi then { vm with pc := (vm.pc + 4) % 2 ^ 32, ev_trap := true } else vm
      (true, riscv32_perform_interrupt vm i)
    | none => (false, vm)
  else (false, vm)

/-- `riscv32_trap_jump` (riscv32.c lines 424-429): jump to the trap vector of
the current privilege.  The offset `cause << 2` is added whenever the low bit
of `tvec` is set, with no check of the event kind; the shift wraps at 32 bits
(`csr.cause` is `uint32_t`), and the final PC write truncates to 32 bits. -/
def riscv32_trap_jump (vm : VMState) : VMState :=
  let t := vm.tvec vm.priv_mode
  let pc := t &&& 0xFFFFFFFC
  let pc := if t &&& 1 ≠ 0 then pc + ((vm.cause vm.priv_mode <<< 2) % 2 ^ 32) else pc
  { vm with pc := pc % 2 ^ 32 }

/-- The `csr.ip` reconciliation performed by the `ev_int` branch of
`riscv32_run_impl` (riscv32.c lines 444-450): fold `ev_int_mask` into `csr.ip`,
then clear the `MTIMER` bit if it is set while the timer is no longer
pending. -/
def riscv32_ip_reconcile (vm : VMState) : VMState :=
  let vm := { vm with ip := vm.ip ||| vm.ev_int_mask }
  if vm.ip &&& (1 <<< INTERRUPT_MTIMER) ≠ 0 then
    if !rvtimer_pending vm then
      { vm with ip := vm.ip &&& (0xFFFFFFFF ^^^ (1 <<< INTERRUPT_MTIMER)) }
    else vm
  else vm

/-- The `ev_int` branch of the run loop (riscv32.c lines 443-455): reconcile
`csr.ip`, clear `ev_int`, consult the interrupt handler, and on delivery jump
to the trap vector. -/
def riscv32_ev_int_branch (vm : VMState) : VMState :=
  let vm := { riscv32_ip_reconcile vm with ev_int := false }
  let r := riscv32_handle_ip vm false
  if r.1 then riscv32_trap_jump r.2 else r.2

/-- One event-dispatch iteration of `riscv32_run_impl` (riscv32.c lines
436-456), after `riscv32_run_till_event` has returned: the `ev_trap` branch
wins over the `ev_int` branch.  Instruction execution itself is outside the
verified claims. -/
def riscv32_run_iteration (vm : VMState) : VMState :=
  if vm.ev_trap then riscv32_trap_jump { vm with ev_trap := false }
  else if vm.ev_int then riscv32_ev_int_branch vm
  else vm

/-! ## Global hart registry and IRQ thread (riscv32.c lines 58-129, 155-249)

`global_vm_list` is tracked as slot occupancy, together with
`global_vm_count`, whether `thread_kill` has been invoked on
`global_irq_thread` (threading.c lines 57-66), and the `static bool
global_init` flag of `riscv32_create_vm`. -/
structure GlobalState where
  vm_list : Nat → Bool
  vm_count : Nat
  irq_killed : Bool
  global_init : Bool

/-- `register_vm` (riscv32.c lines 107-119): refuse hart ids at or above the
cap, otherwise occupy the slot and increment the count. -/
def register_vm (g : GlobalState) (hartid : Nat) : Bool × GlobalState :=
  if MAX_VMS ≤ hartid then (false, g)
  else
    (true,
      { g with
        vm_list := Function.update g.vm_list hartid true
        vm_count := g.vm_count + 1 })

/-- `deregister_vm` (riscv32.c lines 121-129): clear the hart's slot, then
invoke `thread_kill` on the IRQ thread if `global_vm_count == 0`.  Note the
source never decrements `global_vm_count`. -/
def deregister_vm (g : GlobalState) (hartid : Nat) : GlobalState :=
  let g := { g with vm_list := Function.update g.vm_list hartid false }
  if g.vm_count = 0 then { g with irq_killed := true } else g

/-- `riscv32_create_vm` (riscv32.c lines 155-239), restricted to its effect on
the global registry: reject `hartid >= MAX_VMS`; reject a failed `calloc`
(`allocOk = false`); on the first call run the one-time global setup, whose
`devices_init` may fail (`devicesOk = false`, the `goto err` path); finally
register the hart, freeing the VM and returning `NULL` if registration fails.
Device, CLINT, timer and TLB setup have no registry effect and are not
modelled. -/
def riscv32_create_vm (g : GlobalState) (hartid : Nat) (allocOk devicesOk : Bool) :
    Option Unit × GlobalState :=
  if MAX_VMS ≤ hartid then (none, g)
  else if !allocOk then (none, g)
  else
    let r :=
      if !g.global_init then
        if devicesOk then (true, { g with global_init := true }) else (false, g)
      else (true, g)
    if !r.1 then (none, r.2)
    else
      let r2 := register_vm r.2 hartid
      if r2.1 then (some (), r2.2) else (none, r2.2)

/-! ## ATA drive (devices/ata.c)

The drive file handles enter the model only through their observable effects:
`fileRead` is the buffer delivered by a successful `fread` in `ata_read_buf`
(`none` for a short read), `fileWriteOk` the success of the `fwrite` in
`ata_write_buf`, and `fseekOk` the success of `fseek`.  Guest memory bytes are
`List Nat` values. -/

def SECTOR_SIZE : Nat := 512

def ATA_STATUS_ERR : Nat := 1 <<< 0
def ATA_STATUS_DRQ : Nat := 1 <<< 3
def ATA_STATUS_SRV : Nat := 1 <<< 4
def ATA_STATUS_RDY : Nat := 1 <<< 6
def ATA_ERR_ABRT : Nat := 1 <<< 2
def ATA_ERR_UNC : Nat := 1 <<< 6

/-- One entry of `struct ata_dev::drive` (ata.c lines 70-87).  `size` is in
sectors (`size_t`); `bytes_to_rw` and `sectcount` are `uint16_t`; the LBA and
drive registers are `atareg_t = uint16_t`; `status` is `uint8_t`; `buf` is the
512-byte sector buffer.  The `FILE *fp` member is represented only through the
file-effect parameters of the operations. -/
structure AtaDrive where
  size : Nat
  bytes_to_rw : Nat
  sectcount : Nat
  lbal : Nat
  lbam : Nat
  lbah : Nat
  drive : Nat
  error : Nat
  status : Nat
  hob_shift : Nat
  buf : List Nat

/-- `struct ata_dev` (ata.c lines 70-87): two drives and the selected-drive
index (0 or 1, kept as a `Bool`). -/
structure AtaDev where
  drive0 : AtaDrive
  drive1 : AtaDrive
  curdrive : Bool

/-- `ata->drive[ata->curdrive]` as an accessor. -/
def AtaDev.cur (a : AtaDev) : AtaDrive := if a.curdrive then a.drive1 else a.drive0

/-- Write back `ata->drive[ata->curdrive]`. -/
def AtaDev.setCur (a : AtaDev) (d : AtaDrive) : AtaDev :=
  if a.curdrive then { a with drive1 := d } else { a with drive0 := d }

/-- `ata_get_lba(ata, false)` (ata.c lines 98-103); the `is48bit` branch is
never taken by the callers in this file. -/
def ata_get_lba (d : AtaDrive) : Nat :=
  bit_cut d.lbal 0 8 ||| (bit_cut d.lbam 0 8 <<< 8) ||| (bit_cut d.lbah 0 8 <<< 16) |||
    (bit_cut d.drive 0 4 <<< 24)

/-- The `uint16_t id_buf` initializer of `ata_cmd_identify` (ata.c lines
108-130) as a word-indexed function; unset indices are zero. -/
def ata_identify_word (size : Nat) : Nat → Nat
  | 0 => 1 <<< 6
  | 1 => 65535
  | 3 => 16
  | 6 => 63
  | 22 => 4
  | 47 => 0
  | 49 => 1 <<< 9
  | 50 => 1 <<< 14
  | 51 => 4 <<< 8
  | 53 => 1 ||| 2
  | 54 => 65535
  | 55 => 16
  | 56 => 63
  | 57 => if 0xFFFFFFFF < size then 0xFFFF else size &&& 0xFFFF
  | 58 => if 0xFFFFFFFF < size then 0xFFFF else (size >>> 16) % 2 ^ 16
  | 60 => if 0xFFFFFFFF < size then 0xFFFF else size &&& 0xFFFF
  | 61 => if 0xFFFFFFFF < size then 0xFFFF else (size >>> 16) % 2 ^ 16
  | 64 => 1 ||| 2
  | 67 => 1
  | 68 => 1
  | _ => 0

/-- `ata_cmd_identify` (ata.c lines 106-136): fill the sector buffer with the
little-endian bytes of `id_buf`, arm a 512-byte transfer, set
`RDY | SRV | DRQ`, `sectcount = 1`. -/
def ata_cmd_identify (d : AtaDrive) : AtaDrive :=
  { d with
    buf := (List.range SECTOR_SIZE).map
      fun j => (ata_identify_word d.size (j / 2) >>> (8 * (j % 2))) % 256
    bytes_to_rw := SECTOR_SIZE
    status := ATA_STATUS_RDY ||| ATA_STATUS_SRV ||| ATA_STATUS_DRQ
    sectcount := 1 }

/-- `ata_cmd_initialize_device_params` (ata.c lines 138-143): CHS translation
is unsupported, so abort with an error. -/
def ata_cmd_chs_device_params (d : AtaDrive) : AtaDrive :=
  { d with status := d.status ||| ATA_STATUS_ERR, error := d.error ||| ATA_ERR_ABRT }

/-- `ata_cmd_read_sectors` (ata.c lines 174-198): a zero sector count means
256; set `DRQ | RDY`; seek and fill the buffer (`ata_read_buf`), flagging
`ERR`/`UNC` on failure of either. -/
def ata_cmd_read_sectors (d0 : AtaDrive) (fseekOk : Bool) (fileRead : Option (List Nat)) :
    AtaDrive :=
  let d := if d0.sectcount = 0 then { d0 with sectcount := 256 } else d0
  let d := { d with status := d.status ||| ATA_STATUS_DRQ ||| ATA_STATUS_RDY }
  if fseekOk then
    match fileRead with
    | some b => { d with buf := b, bytes_to_rw := SECTOR_SIZE }
    | none => { d with status := d.status ||| ATA_STATUS_ERR, error := d.error ||| ATA_ERR_UNC }
  else { d with status := d.status ||| ATA_STATUS_ERR, error := d.error ||| ATA_ERR_UNC }

/-- `ata_cmd_write_sectors` (ata.c lines 200-220): like the read command but
only arms the 512-byte transfer after a successful seek. -/
def ata_cmd_write_sectors (d0 : AtaDrive) (fseekOk : Bool) : AtaDrive :=
  let d := if d0.sectcount = 0 then { d0 with sectcount := 256 } else d0
  let d := { d with status := d.status ||| ATA_STATUS_DRQ ||| ATA_STATUS_RDY }
  if fseekOk then { d with bytes_to_rw := SECTOR_SIZE }
  else { d with status := d.status ||| ATA_STATUS_ERR, error := d.error ||| ATA_ERR_UNC }

/-- `ata_handle_cmd` (ata.c lines 222-231): dispatch on the command byte;
unknown commands are ignored. -/
def ata_handle_cmd (ata : AtaDev) (cmd : Nat) (fseekOk : Bool) (fileRead : Option (List Nat)) :
    AtaDev :=
  if cmd = 0xEC then ata.setCur (ata_cmd_identify ata.cur)
  else if cmd = 0x91 then ata.setCur (ata_cmd_chs_device_params ata.cur)
  else if cmd = 0x20 then ata.setCur (ata_cmd_read_sectors ata.cur fseekOk fileRead)
  else if cmd = 0x30 then ata.setCur (ata_cmd_write_sectors ata.cur fseekOk)
  else ata

/-- Guest access kind (`MMU_READ` / `MMU_WRITE`). -/
inductive MMUAccess
  | read
  | write
deriving DecidableEq

/-- `ata_data_mmio_handler` (ata.c lines 233-371).  `dataIn` holds the guest
bytes on a write; the returned list holds the bytes the handler stores to
guest memory on a read (`[]` on a write).  `none` is the `return false`
(access-fault) path.  `uint16_t` arithmetic on `bytes_to_rw` and `sectcount`
wraps modulo `2 ^ 16` exactly as the C unsigned conversions do. -/
def ata_data_mmio_handler (ata : AtaDev) (offset : Nat) (dataIn : List Nat) (size : Nat)
    (access : MMUAccess) (fseekOk : Bool) (fileRead : Option (List Nat)) (fileWriteOk : Bool) :
    Option (AtaDev × List Nat) :=
  if offset &&& ((1 <<< 2) - 1) ≠ 0 then none
  else
    let offset := offset >>> 2
    if size ≠ 1 ∧ offset ≠ 0 then none
    else
      match offset, access with
      | 0, .write =>
        let d := ata.cur
        let pos := SECTOR_SIZE - d.bytes_to_rw
        let d := { d with buf := d.buf.take pos ++ dataIn.take size ++ d.buf.drop (pos + size) }
        let d := { d with bytes_to_rw := (d.bytes_to_rw + 2 ^ 32 - size) % 2 ^ 16 }
        if d.bytes_to_rw = 0 then
          let d := { d with status := d.status &&& 0xFFFFFFF7 }
          let d := { d with sectcount := (d.sectcount + 2 ^ 16 - 1) % 2 ^ 16 }
          let d :=
            if d.sectcount ≠ 0 then
              { d with status := d.status ||| ATA_STATUS_DRQ, bytes_to_rw := SECTOR_SIZE }
            else d
          let d :=
            if !fileWriteOk then
              { d with status := d.status ||| ATA_STATUS_ERR, error := d.error ||| ATA_ERR_UNC }
            else d
          some (ata.setCur d, [])
        else some (ata.setCur d, [])
      | 0, .read =>
        let d := ata.cur
        if d.bytes_to_rw ≠ 0 then
          let out := (d.buf.drop (SECTOR_SIZE - d.bytes_to_rw)).take size
          let d := { d with bytes_to_rw := (d.bytes_to_rw + 2 ^ 32 - size) % 2 ^ 16 }
          if d.bytes_to_rw = 0 then
            let d := { d with status := d.status &&& 0xFFFFFFF7 }
            let d := { d with sectcount := (d.sectcount + 2 ^ 16 - 1) % 2 ^ 16 }
            let d :=
              if d.sectcount ≠ 0 then
                let d := { d with status := d.status ||| ATA_STATUS_DRQ }
                match fileRead with
                | some b => { d with buf := b, bytes_to_rw := SECTOR_SIZE }
                | none =>
                  { d with status := d.status ||| ATA_STATUS_ERR, error := d.error ||| ATA_ERR_UNC }
              else d
            some (ata.setCur d, out)
          else some (ata.setCur d, out)
        else some (ata, List.replicate size 0)
      | 1, .write => some (ata, [])
      | 1, .read => some (ata, [ata.cur.error % 256])
      | 2, .write =>
        let b := dataIn.headD 0 % 256
        let d := ata.cur
        some (ata.setCur { d with sectcount := ((d.sectcount <<< 8) % 2 ^ 16) ||| b }, [])
      | 2, .read => some (ata, [(ata.cur.sectcount >>> ata.cur.hob_shift) &&& 0xFF])
      | 3, .write =>
        let b := dataIn.headD 0 % 256
        let d := ata.cur
        some (ata.setCur { d with lbal := ((d.lbal <<< 8) % 2 ^ 16) ||| b }, [])
      | 3, .read => some (ata, [(ata.cur.lbal >>> ata.cur.hob_shift) &&& 0xFF])
      | 4, .write =>
        let b := dataIn.headD 0 % 256
        let d := ata.cur
        some (ata.setCur { d with lbam := ((d.lbam <<< 8) % 2 ^ 16) ||| b }, [])
      | 4, .read => some (ata, [(ata.cur.lbam >>> ata.cur.hob_shift) &&& 0xFF])
      | 5, .write =>
        let b := dataIn.headD 0 % 256
        let d := ata.cur
        some (ata.setCur { d with lbah := ((d.lbah <<< 8) % 2 ^ 16) ||| b }, [])
      | 5, .read => some (ata, [(ata.cur.lbah >>> ata.cur.hob_shift) &&& 0xFF])
      | 6, .write =>
        let b := dataIn.headD 0 % 256
        let ata := { ata with curdrive := bit_check b 4 }
        let d := ata.cur
        some (ata.setCur { d with drive := b }, [])
      | 6, .read => some (ata, [(ata.cur.drive ||| (1 <<< 5) ||| (1 <<< 7)) % 256])
      | 7, .write =>
        let d := ata.cur
        let d := { d with error := 0, status := d.status &&& 0xFFFFFFFE }
        some (ata_handle_cmd (ata.setCur d) (dataIn.headD 0 % 256) fseekOk fileRead, [])
      | 7, .read => some (ata, [ata.cur.status % 256])
      | _, _ => some (ata, [])

/-- `get_img_size` (ata.c lines 425-440) with the file represented by its byte
size: an empty file reports size 0 (the `ftell < 0` host-error path is not
reachable in the model). -/
def get_img_size (size : Nat) : Nat := if size = 0 then 0 else size

/-- `DIV_ROUND_UP` (ata.c line 68). -/
def DIV_ROUND_UP (x d : Nat) : Nat := (x + d - 1) / d

/-- The drive-size fields established by `ata_init` (ata.c lines 442-455). -/
structure AtaInit where
  size0 : Nat
  fp0_null : Bool
  size1 : Nat
  fp1_null : Bool

/-- The size computation of `ata_init` (ata.c lines 442-455), with
`masterSize` / `slaveSize` the byte sizes of the two non-NULL image files.
Note `drive[1].size` is computed from `ata->drive[0].fp` — the master file —
exactly as the source does (line 452).  When the master image is empty,
`drive[0].fp` has been nulled before that call and the source would pass
`NULL` to `fseek`; theorems therefore assume a nonempty master image. -/
def ata_init_sizes (masterSize slaveSize : Nat) : AtaInit :=
  let size0 := DIV_ROUND_UP (get_img_size masterSize) SECTOR_SIZE
  let fp0_null := size0 = 0
  let size1 := DIV_ROUND_UP (get_img_size masterSize) SECTOR_SIZE
  let fp1_null := size1 = 0
  { size0 := size0, fp0_null := fp0_null, size1 := size1, fp1_null := fp1_null }

/-! ## Spec-side firing condition (for refinement comparison)

Section 4.3 of the specification states the interrupt gating in terms of a
target privilege derived from `ideleg`; the definition below renders those
words so they can be compared with the source's `riscv32_handle_ip`. -/

/-- Spec-side definition, following the spec's words (section 4.3): "An
interrupt `i` fires when: (a) its bit is set in both `ip` and `ie`; (b) target
privilege (derived from `ideleg` using the same rule as traps) is ≥ current
privilege, and if equal, the corresponding global-enable bit in `mstatus` is
set (WFI additionally allows delivery while global-enable is clear)".  The
trap rule scans from Machine down to the current mode. -/
def spec_interrupt_fires (vm : VMState) (wfi : Bool) (i : Nat) : Bool :=
  let p := delegScan vm.ideleg vm.priv_mode i
  vm.ip.testBit i && vm.ie.testBit i &&
    (decide (vm.priv_mode < p) ||
      (decide (p = vm.priv_mode) && (vm.status.testBit p || wfi)))

/-! ## Concrete states used to instantiate the theorems -/

/-- A zeroed hart state (as left by the `calloc` in `riscv32_create_vm`),
with `wait_event = 1` as at the top of the run loop. -/
def zeroVM : VMState :=
  { pc := 0, status := 0, edeleg := fun _ => 0, ideleg := fun _ => 0, ie := 0,
    tvec := fun _ => 0, epc := fun _ => 0, cause := fun _ => 0, tval := fun _ => 0,
    ip := 0, priv_mode := 0, ev_trap := false, ev_int := false, ev_int_mask := 0,
    wait_event := 1, timer_mtime := 0, timer_mtimecmp := 0 }

/-- A user-mode hart as `riscv32_create_vm` leaves the Hypervisor `edeleg`
slot (all ones), for instantiating the trap-delegation theorem. -/
def trapVM : VMState :=
  { zeroVM with edeleg := fun p => if p = 2 then 0xFFFFFFFF else 0 }

/-- A user-mode hart with machine software interrupt 3 pending and enabled,
and `ideleg` delegating bit 3 at every level: the source fires it
(`3 & 3 = 3 > 0`), the spec-side condition does not (its `ideleg` scan lands
on the current mode with the global-enable bit clear). -/
def ipVM : VMState :=
  { zeroVM with ip := 0x8, ie := 0x8, ideleg := fun p => if p = 2 then 0xFFFFFFFF else 0x8 }

/-- A machine-mode hart for instantiating the trap state-update theorem:
supervisor-level interrupts enabled in `mstatus` (`SIE`, bit 1) and `MIE`
(bit 3) set so the copies into `xPIE` are visible. -/
def statusVM : VMState :=
  { zeroVM with priv_mode := 3, status := 0xA }

/-- A machine-mode hart with a vectored machine trap vector, for evaluating
`riscv32_trap_jump` on a synchronous trap. -/
def vecVM : VMState :=
  { zeroVM with pc := 0x100, priv_mode := 3, tvec := fun p => if p = 3 then 0x1001 else 0 }

/-- A machine-mode hart parked in WFI with the machine timer interrupt pending
and enabled but `mstatus.MIE` clear: delivery is allowed only because of WFI. -/
def wfiVM : VMState :=
  { zeroVM with pc := 0x40, priv_mode := 3, ip := 0x80, ie := 0x80 }

/-- A hart with the `MTIMER` bit and one software bit pending from the IRQ
thread while the timer comparator lies in the future, for instantiating the
`csr.ip` reconciliation theorem. -/
def timerVM : VMState :=
  { zeroVM with
    ev_trap := false, ev_int := true, ip := 0x20, ev_int_mask := 0x80,
    timer_mtime := 5, timer_mtimecmp := 100 }

/-- The global registry before any hart exists: `global_init` already done so
`riscv32_create_vm` takes the non-first-call path. -/
def emptyRegistry : GlobalState :=
  { vm_list := fun _ => false, vm_count := 0, irq_killed := false, global_init := true }

/-- The registry used to instantiate the creation-failure theorem. -/
def busyRegistry : GlobalState :=
  { vm_list := fun h => decide (h = 5), vm_count := 1, irq_killed := false,
    global_init := true }

/-- An idle ATA drive with no transfer armed (`bytes_to_rw = 0`). -/
def idleDrive : AtaDrive :=
  { size := 2048, bytes_to_rw := 0, sectcount := 1, lbal := 1, lbam := 0, lbah := 0,
    drive := 0, error := 0, status := 0x50, hob_shift := 0, buf := List.replicate 512 0 }

/-- An ATA device with the master drive selected and idle. -/
def idleAta : AtaDev := { drive0 := idleDrive, drive1 := idleDrive, curdrive := false }

/-! ## Bit-level helper lemmas -/

theorem testBit_true_iff_land (x c : Nat) : x.testBit c = true ↔ x &&& (1 <<< c) ≠ 0 := by
  rw [Nat.one_shiftLeft, Nat.and_two_pow]
  cases h : x.testBit c <;> simp [h]

theorem testBit_false_iff_land (x c : Nat) : x.testBit c = false ↔ x &&& (1 <<< c) = 0 := by
  rw [Nat.one_shiftLeft, Nat.and_two_pow]
  cases h : x.testBit c <;> simp [h]

theorem testBit_bit_cut (v pos bits i : Nat) :
    (bit_cut v pos bits).testBit i = (v.testBit (pos + i) && decide (i < bits)) := by
  simp [bit_cut, Nat.one_shiftLeft, Nat.testBit_and, Nat.testBit_shiftRight,
    Nat.testBit_two_pow_sub_one, Bool.and_comm]

theorem bit_cut_one_toNat (v pos : Nat) : bit_cut v pos 1 = (v.testBit pos).toNat := by
  have h : bit_cut v pos 1 = (v >>> pos) % 2 := by
    simp [bit_cut, Nat.one_shiftLeft, Nat.and_one_is_mod]
  rw [h, Nat.shiftRight_eq_div_pow, Nat.testBit_to_div_mod]
  rcases Nat.mod_two_eq_zero_or_one (v / 2 ^ pos) with h2 | h2 <;> simp [h2]

theorem testBit_bit_replace (v pos bits x i : Nat) (hi : i < 32) :
    (bit_replace v pos bits x).testBit i =
      if pos ≤ i ∧ i < pos + bits then x.testBit (i - pos) else v.testBit i := by
  have h32 : (0xFFFFFFFF : Nat) = 2 ^ 32 - 1 := by norm_num
  simp only [bit_replace, h32, Nat.one_shiftLeft, Nat.testBit_or, Nat.testBit_and,
    Nat.testBit_xor, Nat.testBit_shiftLeft, Nat.testBit_two_pow_sub_one]
  by_cases h1 : pos ≤ i
  · by_cases h2 : i - pos < bits
    · have h3 : i < pos + bits := by omega
      simp [h1, h2, hi, h3]
    · have h3 : ¬(i < pos + bits) := by omega
      simp [h1, h2, hi, h3]
  · have h3 : ¬(pos ≤ i ∧ i < pos + bits) := fun h => h1 h.1
    simp [h1, hi, h3]

/-! ## The delegation scan -/

theorem delegScanAux_spec (deleg : Nat → Nat) (lo cause : Nat) :
    ∀ f, lo ≤ f →
      lo ≤ delegScanAux deleg lo cause f ∧ delegScanAux deleg lo cause f ≤ f ∧
      (lo < delegScanAux deleg lo cause f →
        (deleg (delegScanAux deleg lo cause f)).testBit cause = false) ∧
      (∀ q, delegScanAux deleg lo cause f < q → q ≤ f → (deleg q).testBit cause = true) := by
  intro f
  induction f with
  | zero =>
    intro hlo
    have h0 : delegScanAux deleg lo cause 0 = 0 := rfl
    rw [h0]
    exact ⟨hlo, Nat.le_refl 0, fun h => absurd h (by omega),
      fun q h1 h2 => absurd (Nat.lt_of_lt_of_le h1 h2) (by omega)⟩
  | succ f ih =>
    intro hlo
    by_cases hc : lo < f + 1
    · by_cases hb : deleg (f + 1) &&& (1 <<< cause) = 0
      · have hr : delegScanAux deleg lo cause (f + 1) = f + 1 := by
          simp [delegScanAux, hc, hb]
        rw [hr]
        exact ⟨by omega, Nat.le_refl _, fun _ => (testBit_false_iff_land _ _).mpr hb,
          fun q h1 h2 => absurd (Nat.lt_of_lt_of_le h1 h2) (Nat.lt_irrefl _)⟩
      · have hr : delegScanAux deleg lo cause (f + 1) = delegScanAux deleg lo cause f := by
          simp [delegScanAux, hc, hb]
        obtain ⟨ih1, ih2, ih3, ih4⟩ := ih (by omega)
        rw [hr]
        refine ⟨ih1, by omega, ih3, ?_⟩
        intro q hq1 hq2
        rcases Nat.lt_or_ge q (f + 1) with hcase | hcase
        · exact ih4 q hq1 (by omega)
        · have hqe : q = f + 1 := by omega
          subst hqe
          exact (testBit_true_iff_land _ _).mpr hb
    · have hr : delegScanAux deleg lo cause (f + 1) = f + 1 := by
        simp [delegScanAux, hc]
      rw [hr]
      exact ⟨by omega, Nat.le_refl _, fun h => absurd h hc,
        fun q h1 h2 => absurd (Nat.lt_of_lt_of_le h1 h2) (Nat.lt_irrefl _)⟩

theorem delegScan_spec (deleg : Nat → Nat) (lo cause : Nat) (hlo : lo ≤ 3) :
    lo ≤ delegScan deleg lo cause ∧ delegScan deleg lo cause ≤ 3 ∧
    (lo < delegScan deleg lo cause →
      (deleg (delegScan deleg lo cause)).testBit cause = false) ∧
    (∀ q, delegScan deleg lo cause < q → q ≤ 3 → (deleg q).testBit cause = true) :=
  delegScanAux_spec deleg lo cause 3 hlo

/-! ## C1 -/

/-- C1: for every trap delivered by `riscv32_trap` with cause `c`, the target
privilege `p` is the result of scanning from Machine down to the current
mode, stopping at the first level whose `edeleg` does not contain bit `c`
(formally: every level strictly above `p` delegates `c`, and `p` itself does
not when the scan stopped above the current mode); consequently
`priv_mode ≤ p ≤ Machine`, and — because the Hypervisor `edeleg` slot holds
all ones as `riscv32_create_vm` set it — `p` is never Hypervisor. -/
theorem c1_trap_target_privilege (vm : VMState) (cause tval : Nat)
    (hpm : vm.priv_mode ≤ 3) (hpmh : vm.priv_mode ≠ 2) (hc : cause < 32)
    (hh : vm.edeleg 2 = 0xFFFFFFFF) :
    vm.priv_mode ≤ (riscv32_trap vm cause tval).priv_mode ∧
    (riscv32_trap vm cause tval).priv_mode ≤ 3 ∧
    (vm.priv_mode < (riscv32_trap vm cause tval).priv_mode →
      (vm.edeleg ((riscv32_trap vm cause tval).priv_mode)).testBit cause = false) ∧
    (∀ q, (riscv32_trap vm cause tval).priv_mode < q → q ≤ 3 →
      (vm.edeleg q).testBit cause = true) ∧
    (riscv32_trap vm cause tval).priv_mode ≠ 2 := by
  have hp : (riscv32_trap vm cause tval).priv_mode = delegScan vm.edeleg vm.priv_mode cause := rfl
  obtain ⟨h1, h2, h3, h4⟩ := delegScan_spec vm.edeleg vm.priv_mode cause hpm
  rw [hp]
  refine ⟨h1, h2, h3, h4, ?_⟩
  intro h2eq
  have hbit : (vm.edeleg 2).testBit cause = true := by
    rw [hh]
    have : (0xFFFFFFFF : Nat) = 2 ^ 32 - 1 := by norm_num
    rw [this, Nat.testBit_two_pow_sub_one]
    simpa using hc
  have hlt : vm.priv_mode < delegScan vm.edeleg vm.priv_mode cause := by omega
  have := h3 hlt
  rw [h2eq] at this
  rw [this] at hbit
  exact Bool.false_ne_true hbit

/-- Witness for C1 at a concrete hart: user mode, `edeleg` all-ones at the
Hypervisor slot only, cause 2 (illegal instruction). -/
theorem c1_trap_target_privilege_witness :
    trapVM.priv_mode ≤ 3 ∧ trapVM.priv_mode ≠ 2 ∧ (2 : Nat) < 32 ∧
      trapVM.edeleg 2 = 0xFFFFFFFF ∧
      trapVM.priv_mode ≤ (riscv32_trap trapVM 2 0).priv_mode ∧
      (riscv32_trap trapVM 2 0).priv_mode ≠ 2 := by
  have h := c1_trap_target_privilege trapVM 2 0 (by decide)
    (by decide) (by decide) (by decide)
  exact ⟨by decide, by decide, by decide, by decide, h.1, h.2.2.2.2⟩

/-! ## C2 -/

theorem scanInterrupts_eq_some (vm : VMState) (wfi : Bool) :
    ∀ f i, scanInterrupts vm wfi f = some i → interruptFires vm wfi i = true := by
  intro f
  induction f with
  | zero => intro i h; simp [scanInterrupts] at h
  | succ f ih =>
    intro i h
    by_cases hf : interruptFires vm wfi (f + 1) = true
    · simp [scanInterrupts, hf] at h
      rw [← h]; exact hf
    · simp [scanInterrupts, hf] at h
      exact ih i h

/-- C2 counterexample: in user mode with machine software interrupt 3 pending
and enabled and `ideleg` delegating bit 3 at every level, the source fires and
delivers interrupt 3 (its gating privilege is `3 & 3 = 3 > U`), while the
spec-side condition — target privilege derived from `ideleg` by the trap scan,
which here reaches the current mode whose global-enable bit is clear — says it
must not fire. -/
theorem c2_ideleg_gating_counterexample :
    (riscv32_handle_ip ipVM false).fst = true ∧
    (riscv32_handle_ip ipVM false).snd.cause 3 = 0x80000003 ∧
    spec_interrupt_fires ipVM false 3 = false := by decide

/-- C2 (amended): an interrupt `i` fires only when its bit is set in both
`csr.ip` and `csr.ie`, and its source privilege class — the low two bits
`i & 3` of the interrupt number, not an `ideleg`-derived target — is greater
than the current privilege, or equal to it with the corresponding
global-enable bit of `mstatus` set or the hart in WFI (`ideleg` affects only
the privilege the interrupt is delivered to, inside
`riscv32_perform_interrupt`). -/
theorem c2_interrupt_gating_amended (vm : VMState) (wfi : Bool) (i : Nat)
    (h : scanInterrupts vm wfi 11 = some i) :
    (riscv32_handle_ip vm wfi).fst = true ∧
    vm.ip.testBit i = true ∧ vm.ie.testBit i = true ∧
    (vm.priv_mode < i &&& 3 ∨
      (i &&& 3 = vm.priv_mode ∧ (vm.status.testBit (i &&& 3) = true ∨ wfi = true))) := by
  have hf := scanInterrupts_eq_some vm wfi 11 i h
  simp only [interruptFires, interruptAllowed, Bool.and_eq_true, Bool.or_eq_true,
    decide_eq_true_eq] at hf
  obtain ⟨hip, hie, hallow⟩ := hf
  have hipb : vm.ip.testBit i = true := (testBit_true_iff_land _ _).mpr hip
  have hieb : vm.ie.testBit i = true := (testBit_true_iff_land _ _).mpr hie
  refine ⟨?_, hipb, hieb, ?_⟩
  · have hipnz : vm.ip ≠ 0 := by
      intro h0
      rw [h0] at hipb
      simp at hipb
    simp [riscv32_handle_ip, hipnz, h]
  · rcases hallow with h1 | ⟨h2, h3⟩
    · exact Or.inl h1
    · refine Or.inr ⟨h2, ?_⟩
      rcases h3 with h3 | h3
      · exact Or.inl ((testBit_true_iff_land _ _).mpr h3)
      · exact Or.inr h3

/-- Witness for the amended C2 at the concrete hart `ipVM`: the scan fires
interrupt 3 and the amended gating conditions hold there. -/
theorem c2_interrupt_gating_amended_witness :
    scanInterrupts ipVM false 11 = some 3 ∧
    (riscv32_handle_ip ipVM false).fst = true ∧
    ipVM.ip.testBit 3 = true ∧ ipVM.ie.testBit 3 = true ∧
    ipVM.priv_mode < 3 &&& 3 := by
  have h : scanInterrupts ipVM false 11 = some 3 := by decide
  have hc := c2_interrupt_gating_amended ipVM false 3 h
  exact ⟨h, hc.1, hc.2.1, hc.2.2.1, by decide⟩

/-! ## C3 -/

theorem trapStatusUpdate_machine (s pm : Nat) (hpm : pm ≤ 3) :
    bit_cut (trapStatusUpdate s pm 3) 11 2 = pm ∧
    bit_cut (trapStatusUpdate s pm 3) 7 1 = bit_cut s 3 1 ∧
    bit_cut (trapStatusUpdate s pm 3) 3 1 = 0 := by
  have hdef : trapStatusUpdate s pm 3 =
      bit_replace (bit_replace s 11 2 pm) 7 1 (bit_cut (bit_replace s 11 2 pm) 3 1) &&&
        0xFFFFFFF7 := by
    simp [trapStatusUpdate, PRIVILEGE_MACHINE]
  set s1 := bit_replace s 11 2 pm with hs1
  set s2 := bit_replace s1 7 1 (bit_cut s1 3 1) with hs2
  have m3 : Nat.testBit 0xFFFFFFF7 3 = false := by decide
  have m7 : Nat.testBit 0xFFFFFFF7 7 = true := by decide
  have m11 : Nat.testBit 0xFFFFFFF7 11 = true := by decide
  have m12 : Nat.testBit 0xFFFFFFF7 12 = true := by decide
  have t1_3 : s1.testBit 3 = s.testBit 3 := by
    rw [hs1, testBit_bit_replace _ _ _ _ _ (by norm_num)]; norm_num
  have t1_11 : s1.testBit 11 = pm.testBit 0 := by
    rw [hs1, testBit_bit_replace _ _ _ _ _ (by norm_num)]; norm_num
  have t1_12 : s1.testBit 12 = pm.testBit 1 := by
    rw [hs1, testBit_bit_replace _ _ _ _ _ (by norm_num)]; norm_num
  have t2_7 : s2.testBit 7 = s.testBit 3 := by
    rw [hs2, testBit_bit_replace _ _ _ _ _ (by norm_num),
      if_pos (by omega : 7 ≤ 7 ∧ 7 < 7 + 1), testBit_bit_cut]
    simpa using t1_3
  have t2_3 : s2.testBit 3 = s.testBit 3 := by
    rw [hs2, testBit_bit_replace _ _ _ _ _ (by norm_num)]
    simpa using t1_3
  have t2_11 : s2.testBit 11 = pm.testBit 0 := by
    rw [hs2, testBit_bit_replace _ _ _ _ _ (by norm_num)]
    simpa using t1_11
  have t2_12 : s2.testBit 12 = pm.testBit 1 := by
    rw [hs2, testBit_bit_replace _ _ _ _ _ (by norm_num)]
    simpa using t1_12
  rw [hdef]
  refine ⟨?_, ?_, ?_⟩
  · apply Nat.eq_of_testBit_eq
    intro j
    rw [testBit_bit_cut, Nat.testBit_and]
    rcases j with _ | _ | j
    · simp [t2_11, m11]
    · simp [t2_12, m12]
    · have hj : ¬(j + 2 < 2) := by omega
      have hpm2 : pm.testBit (j + 2) = false := by
        apply Nat.testBit_lt_two_pow
        calc pm ≤ 3 := hpm
          _ < 2 ^ 2 := by norm_num
          _ ≤ 2 ^ (j + 2) := Nat.pow_le_pow_right (by norm_num) (by omega)
      simp [hj, hpm2]
  · rw [bit_cut_one_toNat, bit_cut_one_toNat, Nat.testBit_and, m7]
    simp [t2_7]
  · rw [bit_cut_one_toNat, Nat.testBit_and, m3]
    simp

theorem trapStatusUpdate_supervisor (s pm : Nat) (hpm : pm ≤ 1) :
    bit_cut (trapStatusUpdate s pm 1) 8 1 = pm ∧
    bit_cut (trapStatusUpdate s pm 1) 5 1 = bit_cut s 1 1 ∧
    bit_cut (trapStatusUpdate s pm 1) 1 1 = 0 := by
  have hdef : trapStatusUpdate s pm 1 =
      bit_replace (bit_replace s 8 1 pm) 5 1 (bit_cut (bit_replace s 8 1 pm) 1 1) &&&
        0xFFFFFFFD := by
    simp [trapStatusUpdate, PRIVILEGE_MACHINE, PRIVILEGE_SUPERVISOR]
  set s1 := bit_replace s 8 1 pm with hs1
  set s2 := bit_replace s1 5 1 (bit_cut s1 1 1) with hs2
  have m1 : Nat.testBit 0xFFFFFFFD 1 = false := by decide
  have m5 : Nat.testBit 0xFFFFFFFD 5 = true := by decide
  have m8 : Nat.testBit 0xFFFFFFFD 8 = true := by decide
  have t1_1 : s1.testBit 1 = s.testBit 1 := by
    rw [hs1, testBit_bit_replace _ _ _ _ _ (by norm_num)]; norm_num
  have t1_8 : s1.testBit 8 = pm.testBit 0 := by
    rw [hs1, testBit_bit_replace _ _ _ _ _ (by norm_num)]; norm_num
  have t2_5 : s2.testBit 5 = s.testBit 1 := by
    rw [hs2, testBit_bit_replace _ _ _ _ _ (by norm_num),
      if_pos (by omega : 5 ≤ 5 ∧ 5 < 5 + 1), testBit_bit_cut]
    simpa using t1_1
  have t2_1 : s2.testBit 1 = s.testBit 1 := by
    rw [hs2, testBit_bit_replace _ _ _ _ _ (by norm_num)]
    simpa using t1_1
  have t2_8 : s2.testBit 8 = pm.testBit 0 := by
    rw [hs2, testBit_bit_replace _ _ _ _ _ (by norm_num)]
    simpa using t1_8
  rw [hdef]
  refine ⟨?_, ?_, ?_⟩
  · rw [bit_cut_one_toNat, Nat.testBit_and, m8]
    interval_cases pm
    · simp [t2_8]
    · simp [t2_8]
  · rw [bit_cut_one_toNat, bit_cut_one_toNat, Nat.testBit_and, m5]
    simp [t2_5]
  · rw [bit_cut_one_toNat, Nat.testBit_and, m1]
    simp

/-- C3: for every trap delivered by `riscv32_trap` to target privilege `p`:
`epc[p]` holds the PC at the trap, `cause[p]` the cause code, `tval[p]` the
given `tval`, the current privilege becomes `p` (the delegation-scan result),
and `ev_trap` is set; for `p` = Machine the previous privilege is saved into
`MPP`, `MIE` is copied into `MPIE` and then cleared, and for
`p` = Supervisor likewise into `SPP`/`SPIE`/`SIE` (the `xPP`/`xPIE`/`xIE`
fields exist only for those two target modes; for a trap delegated to User
the source leaves the status untouched). -/
theorem c3_trap_state_update (vm : VMState) (cause tval : Nat) (hpm : vm.priv_mode ≤ 3) :
    (riscv32_trap vm cause tval).epc (riscv32_trap vm cause tval).priv_mode = vm.pc ∧
    (riscv32_trap vm cause tval).cause (riscv32_trap vm cause tval).priv_mode = cause ∧
    (riscv32_trap vm cause tval).tval (riscv32_trap vm cause tval).priv_mode = tval ∧
    (riscv32_trap vm cause tval).priv_mode = delegScan vm.edeleg vm.priv_mode cause ∧
    (riscv32_trap vm cause tval).ev_trap = true ∧
    ((riscv32_trap vm cause tval).priv_mode = 3 →
      bit_cut (riscv32_trap vm cause tval).status 11 2 = vm.priv_mode ∧
      bit_cut (riscv32_trap vm cause tval).status 7 1 = bit_cut vm.status 3 1 ∧
      bit_cut (riscv32_trap vm cause tval).status 3 1 = 0) ∧
    ((riscv32_trap vm cause tval).priv_mode = 1 →
      bit_cut (riscv32_trap vm cause tval).status 8 1 = vm.priv_mode ∧
      bit_cut (riscv32_trap vm cause tval).status 5 1 = bit_cut vm.status 1 1 ∧
      bit_cut (riscv32_trap vm cause tval).status 1 1 = 0) := by
  have hpriv : (riscv32_trap vm cause tval).priv_mode =
      delegScan vm.edeleg vm.priv_mode cause := rfl
  have hstat : (riscv32_trap vm cause tval).status =
      trapStatusUpdate vm.status vm.priv_mode (delegScan vm.edeleg vm.priv_mode cause) := rfl
  refine ⟨?_, ?_, ?_, hpriv, rfl, ?_, ?_⟩
  · simp [riscv32_trap]
  · simp [riscv32_trap]
  · simp [riscv32_trap]
  · intro h3
    rw [hpriv] at h3
    rw [hstat, h3]
    exact trapStatusUpdate_machine vm.status vm.priv_mode hpm
  · intro h1
    rw [hpriv] at h1
    have hle := (delegScan_spec vm.edeleg vm.priv_mode cause hpm).1
    rw [h1] at hle
    rw [hstat, h1]
    exact trapStatusUpdate_supervisor vm.status vm.priv_mode hle

/-- Witness for C3 at a concrete machine-mode hart with `MIE` and `SIE` set:
the trap stays in machine mode and the status fields move as stated. -/
theorem c3_trap_state_update_witness :
    statusVM.priv_mode ≤ 3 ∧
    (riscv32_trap statusVM 5 77).epc (riscv32_trap statusVM 5 77).priv_mode = statusVM.pc ∧
    (riscv32_trap statusVM 5 77).cause (riscv32_trap statusVM 5 77).priv_mode = 5 ∧
    (riscv32_trap statusVM 5 77).priv_mode = 3 ∧
    bit_cut (riscv32_trap statusVM 5 77).status 11 2 = statusVM.priv_mode ∧
    bit_cut (riscv32_trap statusVM 5 77).status 3 1 = 0 := by
  have hc := c3_trap_state_update statusVM 5 77 (by decide)
  have h3 : (riscv32_trap statusVM 5 77).priv_mode = 3 := by decide
  obtain ⟨he, hca, htv, hp, hev, hm, hs⟩ := hc
  obtain ⟨hm1, hm2, hm3⟩ := hm h3
  exact ⟨by decide, he, hca, h3, hm1, hm3⟩

/-! ## C4 -/

/-- C4: evaluation at the failing input.  A synchronous illegal-instruction
trap (cause 2, not an interrupt) taken in machine mode with a vectored
`mtvec = 0x1001`: `riscv32_trap_jump` adds `cause << 2` although the event is
no interrupt, landing the PC at `0x1008` instead of the vector base `0x1000`
that the claim (and the RISC-V privileged specification, which this project
sets out to implement) require for a synchronous trap. -/
theorem c4_vectored_jump_eval :
    (riscv32_trap vecVM TRAP_ILL_INSTR 0xBAD).priv_mode = 3 ∧
    (riscv32_trap vecVM TRAP_ILL_INSTR 0xBAD).cause 3 = 2 ∧
    (riscv32_trap_jump (riscv32_trap vecVM TRAP_ILL_INSTR 0xBAD)).pc = 0x1008 := by decide

/-! ## C5 -/

/-- C5: whenever `riscv32_handle_ip` is called with `wfi = true` and an
interrupt fires, the PC is advanced by exactly 4 (mod 2^32) before the
interrupt is delivered — the delivered `epc` records the advanced PC — and
`ev_trap` is set; when no interrupt fires the state, in particular the PC, is
unchanged. -/
theorem c5_wfi_pc_advance (vm : VMState) :
    ((riscv32_handle_ip vm true).fst = true →
      (riscv32_handle_ip vm true).snd.pc = (vm.pc + 4) % 2 ^ 32 ∧
      (riscv32_handle_ip vm true).snd.ev_trap = true ∧
      (riscv32_handle_ip vm true).snd.epc (riscv32_handle_ip vm true).snd.priv_mode =
        (vm.pc + 4) % 2 ^ 32) ∧
    ((riscv32_handle_ip vm true).fst = false → (riscv32_handle_ip vm true).snd = vm) := by
  by_cases hip : vm.ip ≠ 0
  · rcases hscan : scanInterrupts vm true 11 with _ | i
    · simp [riscv32_handle_ip, hip, hscan]
    · simp [riscv32_handle_ip, hip, hscan, riscv32_perform_interrupt, Function.update_same]
  · simp [riscv32_handle_ip, hip]

/-- Witness for C5: at `wfiVM` the machine timer interrupt fires out of WFI
(delivery allowed despite `MIE` clear) and the PC moves from `0x40` to
`0x44`; at the zeroed hart nothing fires and the state is untouched. -/
theorem c5_wfi_pc_advance_witness :
    (riscv32_handle_ip wfiVM true).fst = true ∧
    (riscv32_handle_ip wfiVM true).snd.pc = (wfiVM.pc + 4) % 2 ^ 32 ∧
    (riscv32_handle_ip wfiVM true).snd.ev_trap = true ∧
    (riscv32_handle_ip zeroVM true).fst = false ∧
    (riscv32_handle_ip zeroVM true).snd = zeroVM := by
  have h1 := (c5_wfi_pc_advance wfiVM).1 (by decide)
  have h2 := (c5_wfi_pc_advance zeroVM).2 (by decide)
  exact ⟨by decide, h1.1, h1.2.1, by decide, h2⟩

/-! ## C6 -/

/-- C6: evaluation at the failing input.  Register hart 0 as the only hart,
then deregister it: the slot is emptied (no hart remains registered), yet
`global_vm_count` is still 1 — `deregister_vm` never decrements it — so the
`global_vm_count == 0` test fails and `thread_kill` is never invoked on the
IRQ thread, contradicting the claim that the IRQ thread is cancelled when the
last hart deregisters. -/
theorem c6_irq_thread_not_killed_eval :
    (register_vm emptyRegistry 0).1 = true ∧
    (register_vm emptyRegistry 0).2.vm_count = 1 ∧
    (deregister_vm (register_vm emptyRegistry 0).2 0).vm_list 0 = false ∧
    (deregister_vm (register_vm emptyRegistry 0).2 0).vm_count = 1 ∧
    (deregister_vm (register_vm emptyRegistry 0).2 0).irq_killed = false := by decide

/-! ## C7 -/

/-- C7: `riscv32_create_vm` fails (returns NULL) when the hart id reaches the
registry cap of 256, and when the VM-state allocation fails; in both cases
the global hart registry is left exactly as it was, so no hart is left
registered by the failed creation. -/
theorem c7_create_vm_failure (g : GlobalState) (hartid : Nat) (allocOk devicesOk : Bool) :
    (MAX_VMS ≤ hartid →
      riscv32_create_vm g hartid allocOk devicesOk = (none, g)) ∧
    (allocOk = false →
      riscv32_create_vm g hartid allocOk devicesOk = (none, g)) := by
  constructor
  · intro h
    simp [riscv32_create_vm, h]
  · intro h
    subst h
    by_cases h2 : MAX_VMS ≤ hartid <;> simp [riscv32_create_vm, h2]

/-- Witness for C7: hart id 300 is refused, and a failed allocation for hart
id 7 is refused, both leaving the one-hart registry untouched. -/
theorem c7_create_vm_failure_witness :
    MAX_VMS ≤ 300 ∧
    riscv32_create_vm busyRegistry 300 true true = (none, busyRegistry) ∧
    riscv32_create_vm busyRegistry 7 false true = (none, busyRegistry) :=
  ⟨by decide, (c7_create_vm_failure busyRegistry 300 true true).1 (by decide),
    (c7_create_vm_failure busyRegistry 7 false true).2 rfl⟩

/-! ## C8 -/

/-- C8: in the `ev_int` branch of the run loop (taken when `ev_trap` is clear
and `ev_int` set), `ev_int_mask` is OR-folded into `csr.ip` and then the
`MTIMER` bit of the folded value is cleared if and only if it was set while
the timer is no longer pending — formally, the reconciled `MTIMER` bit equals
the folded bit AND the timer-pending predicate — while every other bit equals
the folded value; all before `riscv32_handle_ip` is consulted. -/
theorem c8_ip_reconcile (vm : VMState) :
    ((riscv32_ip_reconcile vm).ip.testBit 7 =
      ((vm.ip ||| vm.ev_int_mask).testBit 7 && rvtimer_pending vm)) ∧
    (∀ i, i < 32 → i ≠ 7 →
      (riscv32_ip_reconcile vm).ip.testBit i = (vm.ip ||| vm.ev_int_mask).testBit i) ∧
    (vm.ev_trap = false → vm.ev_int = true →
      riscv32_run_iteration vm = riscv32_ev_int_branch vm) := by
  have hdisp : vm.ev_trap = false → vm.ev_int = true →
      riscv32_run_iteration vm = riscv32_ev_int_branch vm := by
    intro h1 h2
    simp [riscv32_run_iteration, h1, h2]
  have hmaskbit : ∀ i, i < 32 → i ≠ 7 →
      Nat.testBit (0xFFFFFFFF ^^^ (1 <<< 7)) i = true := by
    intro i hi hne
    have h32 : (0xFFFFFFFF : Nat) = 2 ^ 32 - 1 := by norm_num
    rw [h32, Nat.testBit_xor, Nat.testBit_two_pow_sub_one, Nat.one_shiftLeft,
      Nat.testBit_two_pow]
    have d2 : ¬(7 = i) := by omega
    simp [hi, d2]
  have hmask7 : Nat.testBit (0xFFFFFFFF ^^^ (1 <<< 7)) 7 = false := by decide
  have hrec : riscv32_ip_reconcile vm =
      (if (vm.ip ||| vm.ev_int_mask) &&& (1 <<< 7) ≠ 0 then
        (if !rvtimer_pending vm then
          { vm with ip := (vm.ip ||| vm.ev_int_mask) &&& (0xFFFFFFFF ^^^ (1 <<< 7)) }
        else { vm with ip := vm.ip ||| vm.ev_int_mask })
      else { vm with ip := vm.ip ||| vm.ev_int_mask }) := rfl
  by_cases hbit : (vm.ip ||| vm.ev_int_mask) &&& (1 <<< 7) ≠ 0
  · cases hp : rvtimer_pending vm
    · have hr : riscv32_ip_reconcile vm =
          { vm with ip := (vm.ip ||| vm.ev_int_mask) &&& (0xFFFFFFFF ^^^ (1 <<< 7)) } := by
        rw [hrec, if_pos hbit, hp]
        simp
      rw [hr]
      refine ⟨?_, ?_, hdisp⟩
      · show ((vm.ip ||| vm.ev_int_mask) &&& (0xFFFFFFFF ^^^ (1 <<< 7))).testBit 7 =
            ((vm.ip ||| vm.ev_int_mask).testBit 7 && false)
        rw [Nat.testBit_and, hmask7]
      · intro i hi hne
        show ((vm.ip ||| vm.ev_int_mask) &&& (0xFFFFFFFF ^^^ (1 <<< 7))).testBit i =
            (vm.ip ||| vm.ev_int_mask).testBit i
        rw [Nat.testBit_and, hmaskbit i hi hne, Bool.and_true]
    · have hr : riscv32_ip_reconcile vm = { vm with ip := vm.ip ||| vm.ev_int_mask } := by
        rw [hrec, if_pos hbit, hp]
        simp
      rw [hr]
      refine ⟨?_, fun i hi hne => rfl, hdisp⟩
      show (vm.ip ||| vm.ev_int_mask).testBit 7 =
          ((vm.ip ||| vm.ev_int_mask).testBit 7 && true)
      rw [Bool.and_true]
  · have hr : riscv32_ip_reconcile vm = { vm with ip := vm.ip ||| vm.ev_int_mask } := by
      rw [hrec, if_neg hbit]
    have h7 : (vm.ip ||| vm.ev_int_mask).testBit 7 = false := by
      rw [testBit_false_iff_land]
      simpa using hbit
    rw [hr]
    refine ⟨?_, fun i hi hne => rfl, hdisp⟩
    show (vm.ip ||| vm.ev_int_mask).testBit 7 =
        ((vm.ip ||| vm.ev_int_mask).testBit 7 && rvtimer_pending vm)
    rw [h7]
    simp

/-- Witness for C8 at `timerVM`: `MTIMER` arrives from the IRQ thread while
the comparator lies in the future, so the folded bit 7 is dropped and bit 5
survives; the dispatch into the `ev_int` branch is taken. -/
theorem c8_ip_reconcile_witness :
    ((riscv32_ip_reconcile timerVM).ip.testBit 7 =
      ((timerVM.ip ||| timerVM.ev_int_mask).testBit 7 && rvtimer_pending timerVM)) ∧
    ((riscv32_ip_reconcile timerVM).ip.testBit 5 =
      (timerVM.ip ||| timerVM.ev_int_mask).testBit 5) ∧
    riscv32_run_iteration timerVM = riscv32_ev_int_branch timerVM := by
  have hc := c8_ip_reconcile timerVM
  exact ⟨hc.1, hc.2.1 5 (by decide) (by decide), hc.2.2 rfl rfl⟩

/-! ## C9 -/

/-- C9: `ata_init` computes the slave drive's sector count from the master
drive's file — `get_img_size(ata->drive[0].fp)` on line 452 — rather than
from the slave file argument, so for every pair of (nonempty master, any
slave) image files the slave drive reports the master image's sector count:
`drive[1].size` equals `ceil(masterSize / 512)`, coincides with
`drive[0].size`, and does not depend on the slave image at all. -/
theorem c9_slave_size_from_master (masterSize slaveSize slaveSize2 : Nat)
    (h : 0 < masterSize) :
    (ata_init_sizes masterSize slaveSize).size1 = DIV_ROUND_UP masterSize SECTOR_SIZE ∧
    (ata_init_sizes masterSize slaveSize).size1 = (ata_init_sizes masterSize slaveSize).size0 ∧
    (ata_init_sizes masterSize slaveSize).size1 =
      (ata_init_sizes masterSize slaveSize2).size1 := by
  have hne : masterSize ≠ 0 := by omega
  have hg : get_img_size masterSize = masterSize := by simp [get_img_size, hne]
  simp [ata_init_sizes, hg]

/-- Witness for C9: a 1000-byte master with two different slave images always
yields slave size 2 sectors (= the master's sector count). -/
theorem c9_slave_size_from_master_witness :
    (0 : Nat) < 1000 ∧
    (ata_init_sizes 1000 5).size1 = DIV_ROUND_UP 1000 SECTOR_SIZE ∧
    (ata_init_sizes 1000 5).size1 = (ata_init_sizes 1000 99999).size1 := by
  have hc := c9_slave_size_from_master 1000 5 99999 (by decide)
  exact ⟨by decide, hc.1, hc.2.2⟩

/-! ## C10 -/

/-- C10: a read of the ATA data register (offset 0 in the data window) while
the selected drive's remaining transfer count `bytes_to_rw` is zero fills all
`size` destination bytes with zero and returns true (no access fault),
leaving the whole device state — in particular the drive's status, error and
sector count — unchanged. -/
theorem c10_data_read_empty (ata : AtaDev) (size : Nat) (dataIn : List Nat)
    (fseekOk : Bool) (fileRead : Option (List Nat)) (fileWriteOk : Bool)
    (h : ata.cur.bytes_to_rw = 0) :
    ata_data_mmio_handler ata 0 dataIn size .read fseekOk fileRead fileWriteOk =
      some (ata, List.replicate size 0) := by
  simp [ata_data_mmio_handler, h]

/-- Witness for C10: a 4-byte data read on the idle device returns four zero
bytes and the untouched device. -/
theorem c10_data_read_empty_witness :
    idleAta.cur.bytes_to_rw = 0 ∧
    ata_data_mmio_handler idleAta 0 [] 4 .read true none true =
      some (idleAta, List.replicate 4 0) :=
  ⟨by decide, c10_data_read_empty idleAta 4 [] true none true (by decide)⟩

end RVVM
